import Mathlib

/-!
# Verification of the `presenter` TTS services (caching / orchestration layer)

Shallow embedding of the two HTTP services in this repository:

* `kokoro` models `kokoro-tts-server/app.py` (plus `config.py` constants);
* `mlxnative` models `mlx-audio-native/app.py`.

Modelling conventions:

* Audio sample values (numpy floating-point numbers) are modelled by
  `Sample`: either a finite rational value or one of the IEEE specials
  `nan` / `posinf` / `neginf`.  Exact rational arithmetic stands in for
  floating-point arithmetic; the claims under study concern the *structure*
  of the numeric post-processing (which values are scrubbed, clamped or
  normalised), not rounding.
* The audio cache directory is an association list from file names to the
  stored sample data; `sf.write` prepends an entry, `Path.exists` /
  `sf.info` look an entry up.
* The external model pipeline (Kokoro / MLX-Audio) is out of scope per the
  spec; its output for one request is passed to the embedded handlers as an
  explicit argument (a list of segments).
* `hashlib.md5(...).hexdigest()` is an external hash; it is passed as an
  opaque function argument `md5 : String → String`.  Claims that treat the
  hash as collision-free quantify over injective `md5`.
* The `speed` request field is a Python float; it is modelled by the decimal
  string that Python's f-string interpolation produces for it (Python's
  float formatting is injective on float values, so string equality of the
  field coincides with float equality).
* Python exceptions are modelled with `Except`; `PyError.http` models
  `fastapi.HTTPException` (whose `str()` is `"{status_code}: {detail}"`),
  `PyError.exc` a plain `Exception` carrying its message.
-/

deriving instance DecidableEq for Except

/-- One audio sample: a floating-point number, modelled as either a finite
rational value or an IEEE special (NaN, +inf, -inf). -/
inductive Sample where
  | nan : Sample
  | posinf : Sample
  | neginf : Sample
  | val : ℚ → Sample
deriving DecidableEq

/-- `np.isnan` on one sample. -/
def Sample.isnan : Sample → Bool
  | .nan => true
  | _ => false

/-- `np.isinf` on one sample. -/
def Sample.isinf : Sample → Bool
  | .posinf => true
  | .neginf => true
  | _ => false

/-- The raw audio data of one file: a 1-D array of samples. -/
abbrev AudioData := List Sample

/-- The audio cache directory: file name ↦ stored audio, as an association
list (most recent write first). -/
abbrev CacheDir := List (String × AudioData)

/-- `Path.exists` / `sf.info`: look a file name up in the cache directory. -/
def CacheDir.find : CacheDir → String → Option AudioData
  | [], _ => none
  | (n, a) :: rest, f => if f = n then some a else CacheDir.find rest f

/-- `sf.write`: store a file in the cache directory. -/
def CacheDir.write (d : CacheDir) (name : String) (content : AudioData) : CacheDir :=
  (name, content) :: d

/-- A Python exception: either a `fastapi.HTTPException` (status code and
detail) or a plain `Exception` with a message. -/
inductive PyError where
  | http (code : ℕ) (detail : String)
  | exc (msg : String)
deriving DecidableEq

/-- Python `str()` of an exception: `HTTPException.__str__` renders
`"{status_code}: {detail}"`, a plain `Exception` renders its message. -/
def PyError.str : PyError → String
  | .http code detail => toString code ++ ": " ++ detail
  | .exc msg => msg

namespace kokoro

/-- `KokoroTTS.supported_languages` (`app.py` lines 66-75): language code ↦
Kokoro internal code, with Python dict-membership via `isSome`. -/
def supported_languages : String → Option String
  | "en" => some "a"
  | "ja" => some "j"
  | "es" => some "e"
  | "fr" => some "f"
  | "hi" => some "h"
  | "it" => some "i"
  | "pt" => some "p"
  | "zh" => some "z"
  | _ => none

/-- Python's `str(list(tts_engine.supported_languages.keys()))`: the dict
keys in insertion order, rendered as a Python list literal. -/
def supportedKeysRepr : String :=
  "[\x27en\x27, \x27ja\x27, \x27es\x27, \x27fr\x27, \x27hi\x27, \x27it\x27, \x27pt\x27, \x27zh\x27]"

/-- `KokoroTTS.sample_rate` (`app.py` line 65). -/
def sample_rate : ℕ := 24000

/-- The request body of `POST /api/tts` (`TTSRequest`, `app.py` lines 44-49).
`speed` holds the decimal rendering of the Python float (see module header). -/
structure TTSRequest where
  text : String
  language : String := "en"
  voice : String := "af_heart"
  format : String := "wav"
  speed : String := "1.0"
deriving DecidableEq

/-- The response body of `POST /api/tts` (`TTSResponse`, `app.py` lines 51-57). -/
structure TTSResponse where
  audio_url : String
  duration : ℚ
  cache_hit : Bool
  model : String := "kokoro-82m"
  voice_used : String
  segments : ℕ
deriving DecidableEq

/-- One `(graphemes, phonemes, audio)` triple yielded by the external
Kokoro pipeline generator. -/
structure KSegment where
  gs : String
  ps : String
  audio : AudioData
deriving DecidableEq

/-- `KokoroTTS.synthesize` (`app.py` lines 92-135): collect the pipeline's
audio segments, fail when there are none, otherwise concatenate them in
order and return the waveform together with the segment count.  The model
(re)load and the pipeline invocation are external; the pipeline's yielded
triples are the argument `gen`. -/
def KokoroTTS.synthesize (gen : List KSegment) : Except String (AudioData × ℕ) :=
  let audio_segments := gen.map KSegment.audio
  if audio_segments.isEmpty then
    .error "No audio segments generated"
  else
    let final_audio :=
      if audio_segments.length == 1 then audio_segments.headD [] else audio_segments.flatten
    .ok (final_audio, audio_segments.length)

/-- The f-string `f"kokoro:{text}:{voice}:{speed}:{language}"`
(`app.py` line 142). -/
def cacheKeyContent (text voice speed language : String) : String :=
  "kokoro:" ++ text ++ ":" ++ voice ++ ":" ++ speed ++ ":" ++ language

/-- `generate_cache_key` (`app.py` lines 140-143): md5 hex digest of the
colon-joined content string; the hash itself is external and passed in. -/
def generate_cache_key (md5 : String → String) (text voice speed language : String) : String :=
  md5 (cacheKeyContent text voice speed language)

/-- The cache file name `f"{cache_key}.{request.format}"` (`app.py` line 197). -/
def cacheFileName (md5 : String → String) (req : TTSRequest) : String :=
  generate_cache_key md5 req.text req.voice req.speed req.language ++ "." ++ req.format

/-- The body of the `try:` block of `synthesize_speech` (`app.py` lines
187-229): validate the language, check the cache, synthesize and write on a
miss, and build the response.  `duration` is `sf.info(cache_file).duration`,
i.e. the stored frame count divided by the sample rate. -/
def synthesizeSpeechInner (md5 : String → String) (dir : CacheDir) (req : TTSRequest)
    (gen : List KSegment) : Except PyError (TTSResponse × CacheDir) :=
  if (supported_languages req.language).isSome then
    let fname := cacheFileName md5 req
    match dir.find fname with
    | some data =>
        .ok ({ audio_url := "/audio/" ++ fname,
               duration := (data.length : ℚ) / sample_rate,
               cache_hit := true,
               voice_used := req.voice,
               segments := 1 }, dir)
    | none =>
        match KokoroTTS.synthesize gen with
        | .error e => .error (.exc e)
        | .ok (audio_data, segments) =>
            .ok ({ audio_url := "/audio/" ++ fname,
                   duration := (audio_data.length : ℚ) / sample_rate,
                   cache_hit := false,
                   voice_used := req.voice,
                   segments := segments }, dir.write fname audio_data)
  else
    .error (.http 400 ("Language \x27" ++ req.language ++ "\x27 not supported. Supported: "
      ++ supportedKeysRepr))

/-- `POST /api/tts` (`synthesize_speech`, `app.py` lines 184-233): the whole
handler body sits in a `try:` whose `except Exception` re-raises *any*
exception — including the handler's own `HTTPException(400)` — as
`HTTPException(500, f"TTS synthesis failed: {str(e)}")`. -/
def synthesize_speech (md5 : String → String) (dir : CacheDir) (req : TTSRequest)
    (gen : List KSegment) : Except (ℕ × String) (TTSResponse × CacheDir) :=
  match synthesizeSpeechInner md5 dir req gen with
  | .ok r => .ok r
  | .error e => .error (500, "TTS synthesis failed: " ++ e.str)

/-- The response of `GET /audio/{filename}`: the `FileResponse` fields the
claims mention (`app.py` lines 243-247). -/
structure FileResp where
  path : String
  media_type : String
  cacheControl : String
deriving DecidableEq

/-- `GET /audio/{filename}` (`get_audio_file`, `app.py` lines 235-247). -/
def get_audio_file (dir : CacheDir) (filename : String) : Except (ℕ × String) FileResp :=
  match dir.find filename with
  | none => .error (404, "Audio file not found")
  | some _ =>
      .ok { path := filename,
            media_type := "audio/wav",
            cacheControl := "public, max-age=3600" }

/-- `Config.CACHE_MAX_SIZE_GB` (`config.py` line 47): declared but read by
no code path. -/
def Config.CACHE_MAX_SIZE_GB : ℚ := 3

/-- `Config.CACHE_CLEANUP_INTERVAL` (`config.py` line 48): declared but read
by no code path. -/
def Config.CACHE_CLEANUP_INTERVAL : ℕ := 3600

end kokoro

namespace mlxnative

/-- `NativeMLXAudioTTS.supported_languages` (`app.py` lines 166-170). -/
def supported_languages : String → Option String
  | "en" => some "a"
  | "ja" => some "j"
  | "zh" => some "z"
  | _ => none

/-- `NativeMLXAudioTTS.voice_mapping['en']` (`app.py` lines 174-181). -/
def voice_mapping_en : String → Option String
  | "female" => some "af_heart"
  | "male" => some "af_alloy"
  | "af_heart" => some "af_heart"
  | "af_alloy" => some "af_alloy"
  | "af_bella" => some "af_bella"
  | "af_nova" => some "af_nova"
  | _ => none

/-- `NativeMLXAudioTTS.voice_mapping['ja']` (`app.py` lines 182-188). -/
def voice_mapping_ja : String → Option String
  | "female" => some "af_bella"
  | "male" => some "af_alloy"
  | "af_heart" => some "af_bella"
  | "af_bella" => some "af_bella"
  | "af_alloy" => some "af_alloy"
  | _ => none

/-- `NativeMLXAudioTTS.voice_mapping['zh']` (`app.py` lines 189-195). -/
def voice_mapping_zh : String → Option String
  | "female" => some "af_nicole"
  | "male" => some "af_alloy"
  | "af_heart" => some "af_nicole"
  | "af_nicole" => some "af_nicole"
  | "af_alloy" => some "af_alloy"
  | _ => none

/-- `NativeMLXAudioTTS.voice_mapping` (`app.py` lines 173-196): the outer
per-language dict. -/
def voice_mapping : String → Option (String → Option String)
  | "en" => some voice_mapping_en
  | "ja" => some voice_mapping_ja
  | "zh" => some voice_mapping_zh
  | _ => none

/-- `NativeMLXAudioTTS.get_voice_for_language` (`app.py` lines 250-253):
`self.voice_mapping.get(language, self.voice_mapping['en'])`, then
`lang_voices.get(voice_preference, lang_voices.get("female", "af_bella"))`. -/
def get_voice_for_language (language voice_preference : String) : String :=
  let lang_voices := (voice_mapping language).getD voice_mapping_en
  (lang_voices voice_preference).getD ((lang_voices "female").getD "af_bella")

/-- `NativeMLXAudioTTS.get_lang_code` (`app.py` lines 255-257):
`self.supported_languages.get(language, 'j')`. -/
def get_lang_code (language : String) : String :=
  (supported_languages language).getD "j"

/-- `NativeMLXAudioTTS.sample_rate` (`app.py` line 160). -/
def sample_rate : ℕ := 24000

/-- `np.finfo(np.float64).max`, the finite value `np.nan_to_num` substitutes
for `+inf` when no explicit `posinf=` replacement is given. -/
def npFloatMaxVal : ℚ := 2 ^ 1024 - 2 ^ 971

/-- `np.nan_to_num(x, nan=0.0)` on one sample (`app.py` line 331 / 363):
NaN becomes `0.0`; with no explicit `posinf=`/`neginf=`, infinities become
the largest finite floats. -/
def nanToNumZero : Sample → Sample
  | .nan => .val 0
  | .posinf => .val npFloatMaxVal
  | .neginf => .val (-npFloatMaxVal)
  | .val q => .val q

/-- `np.nan_to_num(x, posinf=1.0, neginf=-1.0)` on one sample (`app.py`
line 336 / 367): infinities clamp to `±1.0`, NaN to the default `0.0`. -/
def nanToNumClamp : Sample → Sample
  | .nan => .val 0
  | .posinf => .val 1
  | .neginf => .val (-1)
  | .val q => .val q

/-- The magnitude of one (finite) sample, for `np.abs`.  The code only takes
maxima of arrays it has already scrubbed of NaN/Inf, so the value given to
the specials here is never reached on the code's paths. -/
def sampleAbs : Sample → ℚ
  | .val q => |q|
  | _ => 0

/-- `np.max(np.abs(xs))` over a (non-empty, special-free) array. -/
def maxAbs (xs : AudioData) : ℚ :=
  xs.foldr (fun s m => max (sampleAbs s) m) 0

/-- Elementwise division `x / m` of an audio array's sample by a positive
finite scalar (peak normalisation). -/
def divSample (m : ℚ) : Sample → Sample
  | .val q => .val (q / m)
  | s => s

/-- The two special-value passes of the post-processing (`app.py` lines
328-336 per segment, 360-367 for the final array): when any NaN is present,
`nan_to_num(nan=0.0)` the array; when any Inf is (still) present,
`nan_to_num(posinf=1.0, neginf=-1.0)` it. -/
def scrubSpecials (xs : AudioData) : AudioData :=
  let a := if xs.any Sample.isnan then xs.map nanToNumZero else xs
  if a.any Sample.isinf then a.map nanToNumClamp else a

/-- The numeric post-processing the code applies both to each segment
(`app.py` lines 328-344) and to the concatenated result (lines 360-372):
scrub NaN, clamp Inf, then peak-normalise when the maximum magnitude
exceeds `1.0`.  `np.max` of a zero-size array raises a `ValueError`, hence
the error case.  (`astype(np.float32)` is the identity in this model.) -/
def scrub (xs : AudioData) : Except String AudioData :=
  let b := scrubSpecials xs
  if b.isEmpty then
    .error "zero-size array to reduction operation maximum which has no identity"
  else if 1 < maxAbs b then .ok (b.map (divSample (maxAbs b))) else .ok b

/-- The per-segment loop of `NativeMLXAudioTTS.synthesize` (`app.py` lines
310-349): post-process each yielded segment in order, stopping at the first
error. -/
def scrubAll : List AudioData → Except String (List AudioData)
  | [] => .ok []
  | s :: rest =>
      match scrub s with
      | .error e => .error e
      | .ok s2 =>
          match scrubAll rest with
          | .error e => .error e
          | .ok rest2 => .ok (s2 :: rest2)

/-- The body of the `try:` block of `NativeMLXAudioTTS.synthesize`
(`app.py` lines 264-379): post-process the segments, fail when there are
none, concatenate, post-process the concatenation, and return the waveform
with its duration `len(final_audio) / self.sample_rate`.  The pipeline /
model invocation is external; its yielded segments are the argument. -/
def synthesizeCore (segments : List AudioData) : Except String (AudioData × ℚ) :=
  match scrubAll segments with
  | .error e => .error e
  | .ok processed =>
      if processed.isEmpty then .error "No audio segments generated"
      else
        let final0 :=
          if processed.length == 1 then processed.headD [] else processed.flatten
        match scrub final0 with
        | .error e => .error e
        | .ok final_audio => .ok (final_audio, (final_audio.length : ℚ) / sample_rate)

/-- `NativeMLXAudioTTS.synthesize` (`app.py` lines 259-383): the
availability guard raises *before* the `try:`; everything inside the
`try:` is re-raised as `Exception(f"MLX-Audio synthesis failed: {str(e)}")`.
`ready` models `MLX_AUDIO_AVAILABLE and self.kokoro_model`. -/
def NativeMLXAudioTTS.synthesize (ready : Bool) (segments : List AudioData) :
    Except String (AudioData × ℚ) :=
  if ready then
    match synthesizeCore segments with
    | .error e => .error ("MLX-Audio synthesis failed: " ++ e)
    | .ok r => .ok r
  else .error "MLX-Audio not available or not initialized"

/-- The request body of `POST /api/tts` (`TTSRequest`, `app.py` lines
142-147); `speed` as in the module header. -/
structure TTSRequest where
  text : String
  language : String := "ja"
  voice : String := "female"
  format : String := "wav"
  speed : String := "1.0"
deriving DecidableEq

/-- The response body of `POST /api/tts` (`TTSResponse`, `app.py` lines
149-154). -/
structure TTSResponse where
  audio_url : String
  duration : ℚ
  cache_hit : Bool
  model : String := "mlx-audio-kokoro"
  voice_used : String
deriving DecidableEq

/-- The f-string `f"mlx-native:{text}:{voice}:{speed}:{language}"`
(`app.py` line 387). -/
def cacheKeyContent (text voice speed language : String) : String :=
  "mlx-native:" ++ text ++ ":" ++ voice ++ ":" ++ speed ++ ":" ++ language

/-- `generate_cache_key` (`app.py` lines 385-388). -/
def generate_cache_key (md5 : String → String) (text voice speed language : String) : String :=
  md5 (cacheKeyContent text voice speed language)

/-- The cache file name `f"{cache_key}.{request.format}"` (`app.py` line 424). -/
def cacheFileName (md5 : String → String) (req : TTSRequest) : String :=
  generate_cache_key md5 req.text req.voice req.speed req.language ++ "." ++ req.format

/-- The body of the `try:` block of `synthesize_speech` (`app.py` lines
421-452): no language validation; check the cache, synthesize and write on
a miss (using the duration the engine returned), read the duration from the
file on a hit. -/
def synthesizeSpeechInner (md5 : String → String) (ready : Bool) (dir : CacheDir)
    (req : TTSRequest) (segments : List AudioData) : Except PyError (TTSResponse × CacheDir) :=
  let fname := cacheFileName md5 req
  match dir.find fname with
  | some data =>
      .ok ({ audio_url := "/audio/" ++ fname,
             duration := (data.length : ℚ) / sample_rate,
             cache_hit := true,
             voice_used := req.voice }, dir)
  | none =>
      match NativeMLXAudioTTS.synthesize ready segments with
      | .error e => .error (.exc e)
      | .ok (audio_data, duration) =>
          .ok ({ audio_url := "/audio/" ++ fname,
                 duration := duration,
                 cache_hit := false,
                 voice_used := req.voice }, dir.write fname audio_data)

/-- `POST /api/tts` (`synthesize_speech`, `app.py` lines 415-456): a 503
when the engine is absent (checked *before* the `try:`), otherwise the
`try:` body with its blanket `except Exception` re-raising as
`HTTPException(500, f"TTS synthesis failed: {str(e)}")`.  `engine` models
`tts_engine is not None`. -/
def synthesize_speech (md5 : String → String) (engine ready : Bool) (dir : CacheDir)
    (req : TTSRequest) (segments : List AudioData) :
    Except (ℕ × String) (TTSResponse × CacheDir) :=
  if engine then
    match synthesizeSpeechInner md5 ready dir req segments with
    | .ok r => .ok r
    | .error e => .error (500, "TTS synthesis failed: " ++ e.str)
  else .error (503, "TTS engine not initialized")

/-- `GET /audio/{filename}` (`get_audio_file`, `app.py` lines 458-470) —
identical to the kokoro variant's handler. -/
def get_audio_file (dir : CacheDir) (filename : String) : Except (ℕ × String) kokoro.FileResp :=
  match dir.find filename with
  | none => .error (404, "Audio file not found")
  | some _ =>
      .ok { path := filename,
            media_type := "audio/wav",
            cacheControl := "public, max-age=3600" }

end mlxnative

/-- A string free of the ':' separator the cache-key serialization uses. -/
def colonFree (s : String) : Prop := ':' ∉ s.data

/-- A sample is a finite value lying in the audio range `[-1, 1]`. -/
def inAudioRange (s : Sample) : Prop := ∃ q : ℚ, s = .val q ∧ |q| ≤ 1

instance (s : String) : Decidable (colonFree s) := by
  unfold colonFree; infer_instance

instance (s : Sample) : Decidable (inAudioRange s) := by
  unfold inAudioRange
  cases s with
  | val q => exact decidable_of_iff (|q| ≤ 1) (by simp)
  | nan => exact .isFalse (by rintro ⟨q, h, -⟩; cases h)
  | posinf => exact .isFalse (by rintro ⟨q, h, -⟩; cases h)
  | neginf => exact .isFalse (by rintro ⟨q, h, -⟩; cases h)

/-! ## Helper lemmas -/

theorem CacheDir.find_write_self (d : CacheDir) (name : String) (content : AudioData) :
    (d.write name content).find name = some content := by
  simp [CacheDir.write, CacheDir.find]

theorem CacheDir.find_write_of_ne (d : CacheDir) {f name : String} (h : f ≠ name)
    (content : AudioData) : (d.write name content).find f = d.find f := by
  simp [CacheDir.write, CacheDir.find, h]

theorem kokoro_ok_iff {md5 : String → String} {dir : CacheDir} {req : kokoro.TTSRequest}
    {gen : List kokoro.KSegment} {p : kokoro.TTSResponse × CacheDir} :
    kokoro.synthesize_speech md5 dir req gen = .ok p ↔
      kokoro.synthesizeSpeechInner md5 dir req gen = .ok p := by
  unfold kokoro.synthesize_speech
  rcases h : kokoro.synthesizeSpeechInner md5 dir req gen with e | r <;> simp

theorem kokoro_inner_hit {md5 : String → String} {dir : CacheDir} {req : kokoro.TTSRequest}
    {gen : List kokoro.KSegment} {data : AudioData} {r : kokoro.TTSResponse} {d' : CacheDir}
    (hfind : dir.find (kokoro.cacheFileName md5 req) = some data)
    (h : kokoro.synthesizeSpeechInner md5 dir req gen = .ok (r, d')) :
    r = { audio_url := "/audio/" ++ kokoro.cacheFileName md5 req,
          duration := (data.length : ℚ) / kokoro.sample_rate,
          cache_hit := true, voice_used := req.voice, segments := 1 } ∧ d' = dir := by
  by_cases hsup : (kokoro.supported_languages req.language).isSome
  · simp only [kokoro.synthesizeSpeechInner, hsup, if_true, hfind] at h
    obtain ⟨hr, hd⟩ := Prod.mk.injEq .. ▸ (Except.ok.inj h)
    exact ⟨hr.symm, hd.symm⟩
  · simp only [kokoro.synthesizeSpeechInner, hsup, if_false] at h
    exact absurd h (by simp)

theorem kokoro_inner_miss {md5 : String → String} {dir : CacheDir} {req : kokoro.TTSRequest}
    {gen : List kokoro.KSegment} {r : kokoro.TTSResponse} {d' : CacheDir}
    (hfind : dir.find (kokoro.cacheFileName md5 req) = none)
    (h : kokoro.synthesizeSpeechInner md5 dir req gen = .ok (r, d')) :
    ∃ audio_data segments,
      kokoro.KokoroTTS.synthesize gen = .ok (audio_data, segments) ∧
      r = { audio_url := "/audio/" ++ kokoro.cacheFileName md5 req,
            duration := (audio_data.length : ℚ) / kokoro.sample_rate,
            cache_hit := false, voice_used := req.voice, segments := segments } ∧
      d' = dir.write (kokoro.cacheFileName md5 req) audio_data := by
  by_cases hsup : (kokoro.supported_languages req.language).isSome
  · rcases hs : kokoro.KokoroTTS.synthesize gen with e | pr
    · simp only [kokoro.synthesizeSpeechInner, hsup, if_true, hfind, hs] at h
      exact absurd h (by simp)
    · obtain ⟨audio_data, segments⟩ := pr
      simp only [kokoro.synthesizeSpeechInner, hsup, if_true, hfind, hs] at h
      obtain ⟨hr, hd⟩ := Prod.mk.injEq .. ▸ (Except.ok.inj h)
      exact ⟨audio_data, segments, rfl, hr.symm, hd.symm⟩
  · simp only [kokoro.synthesizeSpeechInner, hsup, if_false] at h
    exact absurd h (by simp)

theorem mlx_ok_iff {md5 : String → String} {engine ready : Bool} {dir : CacheDir}
    {req : mlxnative.TTSRequest} {segments : List AudioData}
    {p : mlxnative.TTSResponse × CacheDir} :
    mlxnative.synthesize_speech md5 engine ready dir req segments = .ok p ↔
      engine = true ∧ mlxnative.synthesizeSpeechInner md5 ready dir req segments = .ok p := by
  unfold mlxnative.synthesize_speech
  cases engine
  · simp
  · rcases h : mlxnative.synthesizeSpeechInner md5 ready dir req segments with e | r <;> simp

theorem mlx_inner_hit {md5 : String → String} {ready : Bool} {dir : CacheDir}
    {req : mlxnative.TTSRequest} {segments : List AudioData} {data : AudioData}
    {r : mlxnative.TTSResponse} {d' : CacheDir}
    (hfind : dir.find (mlxnative.cacheFileName md5 req) = some data)
    (h : mlxnative.synthesizeSpeechInner md5 ready dir req segments = .ok (r, d')) :
    r = { audio_url := "/audio/" ++ mlxnative.cacheFileName md5 req,
          duration := (data.length : ℚ) / mlxnative.sample_rate,
          cache_hit := true, voice_used := req.voice } ∧ d' = dir := by
  simp only [mlxnative.synthesizeSpeechInner, hfind] at h
  obtain ⟨hr, hd⟩ := Prod.mk.injEq .. ▸ (Except.ok.inj h)
  exact ⟨hr.symm, hd.symm⟩

theorem mlx_inner_miss {md5 : String → String} {ready : Bool} {dir : CacheDir}
    {req : mlxnative.TTSRequest} {segments : List AudioData}
    {r : mlxnative.TTSResponse} {d' : CacheDir}
    (hfind : dir.find (mlxnative.cacheFileName md5 req) = none)
    (h : mlxnative.synthesizeSpeechInner md5 ready dir req segments = .ok (r, d')) :
    ∃ audio_data duration,
      mlxnative.NativeMLXAudioTTS.synthesize ready segments = .ok (audio_data, duration) ∧
      r = { audio_url := "/audio/" ++ mlxnative.cacheFileName md5 req,
            duration := duration,
            cache_hit := false, voice_used := req.voice } ∧
      d' = dir.write (mlxnative.cacheFileName md5 req) audio_data := by
  rcases hs : mlxnative.NativeMLXAudioTTS.synthesize ready segments with e | pr
  · simp only [mlxnative.synthesizeSpeechInner, hfind, hs] at h
    exact absurd h (by simp)
  · obtain ⟨audio_data, duration⟩ := pr
    simp only [mlxnative.synthesizeSpeechInner, hfind, hs] at h
    obtain ⟨hr, hd⟩ := Prod.mk.injEq .. ▸ (Except.ok.inj h)
    exact ⟨audio_data, duration, rfl, hr.symm, hd.symm⟩

theorem headD_eq_flatten {α : Type} (l : List (List α)) :
    (if l.length == 1 then l.headD [] else l.flatten) = l.flatten := by
  cases l with
  | nil => simp
  | cons x rest =>
      cases rest with
      | nil => simp
      | cons y rest2 => simp

theorem kokoro_synthesize_spec {gen : List kokoro.KSegment} {a : AudioData} {n : ℕ}
    (h : kokoro.KokoroTTS.synthesize gen = .ok (a, n)) :
    gen ≠ [] ∧ a = (gen.map kokoro.KSegment.audio).flatten ∧ n = gen.length := by
  simp only [kokoro.KokoroTTS.synthesize] at h
  split at h
  · exact absurd h (by simp)
  · next hne =>
      obtain ⟨h1, h2⟩ := Prod.mk.injEq .. ▸ (Except.ok.inj h)
      refine ⟨?_, ?_, ?_⟩
      · intro hnil; subst hnil; simp at hne
      · rw [← h1, headD_eq_flatten]
      · rw [← h2, List.length_map]

theorem kokoro_synthesize_nil :
    kokoro.KokoroTTS.synthesize [] = .error "No audio segments generated" := rfl

theorem nanToNumZero_isval (t : Sample) : ∃ q : ℚ, mlxnative.nanToNumZero t = .val q := by
  cases t <;> exact ⟨_, rfl⟩

theorem nanToNumClamp_isval (t : Sample) : ∃ q : ℚ, mlxnative.nanToNumClamp t = .val q := by
  cases t <;> exact ⟨_, rfl⟩

theorem scrubSpecials_cases (xs : AudioData) :
    (mlxnative.scrubSpecials xs = xs ∧ xs.any Sample.isnan = false ∧ xs.any Sample.isinf = false)
    ∨ ∃ f : Sample → Sample, (∀ t, ∃ q : ℚ, f t = Sample.val q) ∧
        mlxnative.scrubSpecials xs = xs.map f := by
  unfold mlxnative.scrubSpecials
  cases h1 : xs.any Sample.isnan
  · cases h2 : xs.any Sample.isinf
    · exact Or.inl ⟨by simp [h1, h2], rfl, rfl⟩
    · exact Or.inr ⟨mlxnative.nanToNumClamp, nanToNumClamp_isval, by simp [h1, h2]⟩
  · cases h2 : (xs.map mlxnative.nanToNumZero).any Sample.isinf
    · exact Or.inr ⟨mlxnative.nanToNumZero, nanToNumZero_isval, by simp [h1, h2]⟩
    · refine Or.inr ⟨mlxnative.nanToNumClamp ∘ mlxnative.nanToNumZero, fun t => ?_, ?_⟩
      · obtain ⟨q, hq⟩ := nanToNumZero_isval t
        exact ⟨q, by simp [Function.comp, hq, mlxnative.nanToNumClamp]⟩
      · simp [h1, h2, List.map_map]

theorem scrubSpecials_val {xs : AudioData} {s : Sample}
    (hs : s ∈ mlxnative.scrubSpecials xs) : ∃ q : ℚ, s = .val q := by
  rcases scrubSpecials_cases xs with ⟨heq, h1, h2⟩ | ⟨f, hf, heq⟩
  · rw [heq] at hs
    rw [List.any_eq_false] at h1 h2
    cases s with
    | val q => exact ⟨q, rfl⟩
    | nan => exact absurd rfl (h1 _ hs)
    | posinf => exact absurd rfl (h2 _ hs)
    | neginf => exact absurd rfl (h2 _ hs)
  · rw [heq] at hs
    obtain ⟨t, -, rfl⟩ := List.mem_map.mp hs
    exact hf t

theorem scrubSpecials_length (xs : AudioData) :
    (mlxnative.scrubSpecials xs).length = xs.length := by
  rcases scrubSpecials_cases xs with ⟨heq, -, -⟩ | ⟨f, -, heq⟩ <;> simp [heq]

theorem maxAbs_cons (x : Sample) (xs : AudioData) :
    mlxnative.maxAbs (x :: xs) = max (mlxnative.sampleAbs x) (mlxnative.maxAbs xs) := rfl

theorem sampleAbs_le_maxAbs {xs : AudioData} {s : Sample} (h : s ∈ xs) :
    mlxnative.sampleAbs s ≤ mlxnative.maxAbs xs := by
  induction xs with
  | nil => cases h
  | cons x rest ih =>
      rw [maxAbs_cons]
      rcases List.mem_cons.mp h with rfl | h2
      · exact le_max_left _ _
      · exact le_trans (ih h2) (le_max_right _ _)

theorem maxAbs_le {xs : AudioData} {c : ℚ} (h0 : 0 ≤ c)
    (h : ∀ s ∈ xs, mlxnative.sampleAbs s ≤ c) : mlxnative.maxAbs xs ≤ c := by
  induction xs with
  | nil => exact h0
  | cons x rest ih =>
      rw [maxAbs_cons]
      exact max_le (h x (by simp)) (ih fun s hs => h s (by simp [hs]))

theorem isEmpty_false_of_ne_nil {α : Type} {l : List α} (h : l ≠ []) : l.isEmpty = false := by
  cases l with
  | nil => exact absurd rfl h
  | cons x xs => rfl

theorem scrub_ok_inAudioRange {xs ys : AudioData} (h : mlxnative.scrub xs = .ok ys) :
    ∀ s ∈ ys, inAudioRange s := by
  simp only [mlxnative.scrub] at h
  split at h
  · exact absurd h (by simp)
  · split at h
    · next hgt =>
        obtain rfl := Except.ok.inj h
        intro s hs
        obtain ⟨t, ht, rfl⟩ := List.mem_map.mp hs
        obtain ⟨q, rfl⟩ := scrubSpecials_val ht
        have hm : 0 < mlxnative.maxAbs (mlxnative.scrubSpecials xs) := lt_trans one_pos hgt
        have hq : |q| ≤ mlxnative.maxAbs (mlxnative.scrubSpecials xs) := sampleAbs_le_maxAbs ht
        refine ⟨q / mlxnative.maxAbs (mlxnative.scrubSpecials xs), rfl, ?_⟩
        rw [abs_div, abs_of_pos hm]
        exact (div_le_one hm).mpr hq
    · next hle =>
        obtain rfl := Except.ok.inj h
        intro s hs
        obtain ⟨q, rfl⟩ := scrubSpecials_val hs
        have hq : |q| ≤ mlxnative.maxAbs (mlxnative.scrubSpecials xs) := sampleAbs_le_maxAbs hs
        exact ⟨q, rfl, le_trans hq (not_lt.mp hle)⟩

theorem scrub_ok_length {xs ys : AudioData} (h : mlxnative.scrub xs = .ok ys) :
    ys.length = xs.length := by
  simp only [mlxnative.scrub] at h
  split at h
  · exact absurd h (by simp)
  · split at h
    · obtain rfl := Except.ok.inj h
      rw [List.length_map, scrubSpecials_length]
    · obtain rfl := Except.ok.inj h
      rw [scrubSpecials_length]

theorem scrub_ok_of_ne_nil {xs : AudioData} (h : xs ≠ []) :
    ∃ ys, mlxnative.scrub xs = .ok ys := by
  have hb : mlxnative.scrubSpecials xs ≠ [] := by
    intro h0
    apply h
    have hlen := scrubSpecials_length xs
    rw [h0] at hlen
    exact List.length_eq_zero.mp hlen.symm
  simp only [mlxnative.scrub, isEmpty_false_of_ne_nil hb]
  split
  · simp at *
  · split
    · exact ⟨_, rfl⟩
    · exact ⟨_, rfl⟩

theorem scrub_ok_ne_nil {xs ys : AudioData} (h : mlxnative.scrub xs = .ok ys) : xs ≠ [] := by
  intro h0
  subst h0
  simp [mlxnative.scrub, mlxnative.scrubSpecials] at h

theorem scrub_eq_self {xs : AudioData} (hgood : ∀ s ∈ xs, inAudioRange s) (hne : xs ≠ []) :
    mlxnative.scrub xs = .ok xs := by
  have hnan : xs.any Sample.isnan = false := by
    rw [List.any_eq_false]
    intro s hs
    obtain ⟨q, rfl, -⟩ := hgood s hs
    simp [Sample.isnan]
  have hinf : xs.any Sample.isinf = false := by
    rw [List.any_eq_false]
    intro s hs
    obtain ⟨q, rfl, -⟩ := hgood s hs
    simp [Sample.isinf]
  have hspec : mlxnative.scrubSpecials xs = xs := by
    unfold mlxnative.scrubSpecials
    simp [hnan, hinf]
  have hmax : mlxnative.maxAbs xs ≤ 1 := by
    refine maxAbs_le zero_le_one fun s hs => ?_
    obtain ⟨q, rfl, hq⟩ := hgood s hs
    simpa [mlxnative.sampleAbs] using hq
  simp [mlxnative.scrub, hspec, isEmpty_false_of_ne_nil hne, not_lt.mpr hmax]

theorem scrubAll_ok_of {segs : List AudioData} (h : ∀ s ∈ segs, s ≠ []) :
    ∃ ps, mlxnative.scrubAll segs = .ok ps := by
  induction segs with
  | nil => exact ⟨[], rfl⟩
  | cons s rest ih =>
      obtain ⟨ys, hys⟩ := scrub_ok_of_ne_nil (h s (by simp))
      obtain ⟨ps, hps⟩ := ih fun t ht => h t (by simp [ht])
      exact ⟨ys :: ps, by simp [mlxnative.scrubAll, hys, hps]⟩

theorem scrubAll_map_length {segs : List AudioData} {ps : List AudioData}
    (h : mlxnative.scrubAll segs = .ok ps) :
    ps.map List.length = segs.map List.length := by
  induction segs generalizing ps with
  | nil =>
      simp only [mlxnative.scrubAll] at h
      obtain rfl := Except.ok.inj h
      rfl
  | cons s rest ih =>
      simp only [mlxnative.scrubAll] at h
      rcases hs : mlxnative.scrub s with e | ys
      · simp [hs] at h
      · simp only [hs] at h
        rcases hr : mlxnative.scrubAll rest with e | ps2
        · simp [hr] at h
        · simp only [hr] at h
          obtain rfl := Except.ok.inj h
          simp [scrub_ok_length hs, ih hr]

theorem scrubAll_mem {segs ps : List AudioData} {p : AudioData}
    (h : mlxnative.scrubAll segs = .ok ps) (hp : p ∈ ps) :
    ∃ s ∈ segs, mlxnative.scrub s = .ok p := by
  induction segs generalizing ps with
  | nil =>
      simp only [mlxnative.scrubAll] at h
      obtain rfl := Except.ok.inj h
      cases hp
  | cons s rest ih =>
      simp only [mlxnative.scrubAll] at h
      rcases hs : mlxnative.scrub s with e | ys
      · simp [hs] at h
      · simp only [hs] at h
        rcases hr : mlxnative.scrubAll rest with e | ps2
        · simp [hr] at h
        · simp only [hr] at h
          obtain rfl := Except.ok.inj h
          rcases List.mem_cons.mp hp with rfl | hp2
          · exact ⟨s, by simp, hs⟩
          · obtain ⟨t, ht, hts⟩ := ih hr hp2
            exact ⟨t, by simp [ht], hts⟩

theorem synthesizeCore_ok {segs : List AudioData} {audio : AudioData} {dur : ℚ}
    (h : mlxnative.synthesizeCore segs = .ok (audio, dur)) :
    ∃ processed, mlxnative.scrubAll segs = .ok processed ∧ processed ≠ [] ∧
      mlxnative.scrub processed.flatten = .ok audio ∧
      dur = (audio.length : ℚ) / mlxnative.sample_rate := by
  simp only [mlxnative.synthesizeCore] at h
  rcases ha : mlxnative.scrubAll segs with e | processed
  · simp [ha] at h
  · simp only [ha] at h
    split at h
    · exact absurd h (by simp)
    · next hne =>
        rw [headD_eq_flatten] at h
        rcases hs : mlxnative.scrub processed.flatten with e | final
        · simp [hs] at h
        · simp only [hs] at h
          obtain ⟨h1, h2⟩ := Prod.mk.injEq .. ▸ (Except.ok.inj h)
          refine ⟨processed, rfl, ?_, by rw [h1] at hs; exact hs, by rw [← h2, h1]⟩
          intro h0
          subst h0
          simp at hne

theorem mlx_synthesize_ok {ready : Bool} {segs : List AudioData} {audio : AudioData} {dur : ℚ}
    (h : mlxnative.NativeMLXAudioTTS.synthesize ready segs = .ok (audio, dur)) :
    mlxnative.synthesizeCore segs = .ok (audio, dur) := by
  unfold mlxnative.NativeMLXAudioTTS.synthesize at h
  cases ready
  · simp at h
  · simp only [if_true] at h
    rcases hc : mlxnative.synthesizeCore segs with e | r
    · simp [hc] at h
    · simp only [hc] at h
      obtain rfl := Except.ok.inj h
      rfl

theorem mlx_synthesize_of_core {segs : List AudioData} {audio : AudioData} {dur : ℚ}
    (h : mlxnative.synthesizeCore segs = .ok (audio, dur)) :
    mlxnative.NativeMLXAudioTTS.synthesize true segs = .ok (audio, dur) := by
  unfold mlxnative.NativeMLXAudioTTS.synthesize
  simp [h]

theorem synthesizeCore_ok_of {segs : List AudioData} (hne : segs ≠ [])
    (hseg : ∀ s ∈ segs, s ≠ []) :
    ∃ audio dur, mlxnative.synthesizeCore segs = .ok (audio, dur) := by
  obtain ⟨ps, hps⟩ := scrubAll_ok_of hseg
  have hlen : ps.length = segs.length := by
    have h1 := congrArg List.length (scrubAll_map_length hps)
    simpa using h1
  have hpne : ps ≠ [] := by
    intro h0
    apply hne
    rw [h0] at hlen
    exact List.length_eq_zero.mp hlen.symm
  have hflat : ps.flatten ≠ [] := by
    cases ps with
    | nil => exact absurd rfl hpne
    | cons p rest =>
        obtain ⟨s, hsm, hsp⟩ := scrubAll_mem hps (by simp : p ∈ p :: rest)
        have hp : p ≠ [] := by
          intro h0
          apply hseg s hsm
          have h1 := scrub_ok_length hsp
          rw [h0] at h1
          exact List.length_eq_zero.mp h1.symm
        cases p with
        | nil => exact absurd rfl hp
        | cons x p2 => simp
  obtain ⟨ys, hys⟩ := scrub_ok_of_ne_nil hflat
  refine ⟨ys, (ys.length : ℚ) / mlxnative.sample_rate, ?_⟩
  simp only [mlxnative.synthesizeCore, hps, isEmpty_false_of_ne_nil hpne, headD_eq_flatten,
    hys, Bool.false_eq_true, if_false]

/-! ## Claim theorems -/

/-- C1: in both service variants, for an accepted request whose cache file
is absent, the first `POST /api/tts` succeeds with `cache_hit = false`, a
second identical request then succeeds with `cache_hit = true`, and both
responses carry the same `audio_url` — the deterministic URL
`"/audio/" ++ cache_key ++ "." ++ format` built from the request tuple. -/
theorem C1_cache_roundtrip :
    (∀ (md5 : String → String) (dir : CacheDir) (req : kokoro.TTSRequest)
        (gen gen2 : List kokoro.KSegment) (r1 r2 : kokoro.TTSResponse) (d1 d2 : CacheDir),
        dir.find (kokoro.cacheFileName md5 req) = none →
        kokoro.synthesize_speech md5 dir req gen = .ok (r1, d1) →
        kokoro.synthesize_speech md5 d1 req gen2 = .ok (r2, d2) →
        r1.cache_hit = false ∧ r2.cache_hit = true ∧ r1.audio_url = r2.audio_url ∧
        r1.audio_url = "/audio/" ++ kokoro.cacheFileName md5 req)
    ∧
    (∀ (md5 : String → String) (engine ready : Bool) (dir : CacheDir)
        (req : mlxnative.TTSRequest) (segs segs2 : List AudioData)
        (r1 r2 : mlxnative.TTSResponse) (d1 d2 : CacheDir),
        dir.find (mlxnative.cacheFileName md5 req) = none →
        mlxnative.synthesize_speech md5 engine ready dir req segs = .ok (r1, d1) →
        mlxnative.synthesize_speech md5 engine ready d1 req segs2 = .ok (r2, d2) →
        r1.cache_hit = false ∧ r2.cache_hit = true ∧ r1.audio_url = r2.audio_url ∧
        r1.audio_url = "/audio/" ++ mlxnative.cacheFileName md5 req) := by
  constructor
  · intro md5 dir req gen gen2 r1 r2 d1 d2 hmiss h1 h2
    obtain ⟨audio, segs, hs, hr1, hd1⟩ := kokoro_inner_miss hmiss (kokoro_ok_iff.mp h1)
    have hfind2 : d1.find (kokoro.cacheFileName md5 req) = some audio := by
      rw [hd1]; exact CacheDir.find_write_self ..
    obtain ⟨hr2, hd2⟩ := kokoro_inner_hit hfind2 (kokoro_ok_iff.mp h2)
    subst hr1; subst hr2; simp
  · intro md5 engine ready dir req segs segs2 r1 r2 d1 d2 hmiss h1 h2
    obtain ⟨-, h1i⟩ := mlx_ok_iff.mp h1
    obtain ⟨-, h2i⟩ := mlx_ok_iff.mp h2
    obtain ⟨audio, dur, hs, hr1, hd1⟩ := mlx_inner_miss hmiss h1i
    have hfind2 : d1.find (mlxnative.cacheFileName md5 req) = some audio := by
      rw [hd1]; exact CacheDir.find_write_self ..
    obtain ⟨hr2, hd2⟩ := mlx_inner_hit hfind2 h2i
    subst hr1; subst hr2; simp

/-- C7: in both service variants, a successful `POST /api/tts` never
removes or overwrites an existing cache entry (every file previously
readable is readable with unchanged content), a request whose cache file
already exists leaves the cache directory exactly as it was, and the
configured `CACHE_MAX_SIZE_GB = 3` constant exists, with no operation of
the service consulting it. -/
theorem C7_cache_immutable :
    (∀ (md5 : String → String) (dir : CacheDir) (req : kokoro.TTSRequest)
        (gen : List kokoro.KSegment) (r : kokoro.TTSResponse) (d' : CacheDir),
        kokoro.synthesize_speech md5 dir req gen = .ok (r, d') →
        (∀ f v, dir.find f = some v → d'.find f = some v) ∧
        (∀ data, dir.find (kokoro.cacheFileName md5 req) = some data → d' = dir))
    ∧
    (∀ (md5 : String → String) (engine ready : Bool) (dir : CacheDir)
        (req : mlxnative.TTSRequest) (segs : List AudioData)
        (r : mlxnative.TTSResponse) (d' : CacheDir),
        mlxnative.synthesize_speech md5 engine ready dir req segs = .ok (r, d') →
        (∀ f v, dir.find f = some v → d'.find f = some v) ∧
        (∀ data, dir.find (mlxnative.cacheFileName md5 req) = some data → d' = dir))
    ∧ kokoro.Config.CACHE_MAX_SIZE_GB = 3 := by
  refine ⟨?_, ?_, rfl⟩
  · intro md5 dir req gen r d' h
    rcases hfind : dir.find (kokoro.cacheFileName md5 req) with _ | data
    · obtain ⟨audio, segs, -, -, hd'⟩ := kokoro_inner_miss hfind (kokoro_ok_iff.mp h)
      subst hd'
      refine ⟨?_, ?_⟩
      · intro f v hv
        rcases eq_or_ne f (kokoro.cacheFileName md5 req) with rfl | hne
        · rw [hfind] at hv; cases hv
        · rw [CacheDir.find_write_of_ne _ hne]; exact hv
      · intro data hdata; simp at hdata
    · obtain ⟨-, hd'⟩ := kokoro_inner_hit hfind (kokoro_ok_iff.mp h)
      subst hd'
      exact ⟨fun f v hv => hv, fun _ _ => rfl⟩
  · intro md5 engine ready dir req segs r d' h
    obtain ⟨-, hi⟩ := mlx_ok_iff.mp h
    rcases hfind : dir.find (mlxnative.cacheFileName md5 req) with _ | data
    · obtain ⟨audio, dur, -, -, hd'⟩ := mlx_inner_miss hfind hi
      subst hd'
      refine ⟨?_, ?_⟩
      · intro f v hv
        rcases eq_or_ne f (mlxnative.cacheFileName md5 req) with rfl | hne
        · rw [hfind] at hv; cases hv
        · rw [CacheDir.find_write_of_ne _ hne]; exact hv
      · intro data hdata; simp at hdata
    · obtain ⟨-, hd'⟩ := mlx_inner_hit hfind hi
      subst hd'
      exact ⟨fun f v hv => hv, fun _ _ => rfl⟩

/-- C8: in the mlx-audio-native variant, every successful `POST /api/tts`
response reports `voice_used` as the request's `voice` string verbatim,
even though the synthesis path substitutes a concrete voice id — e.g.
`get_voice_for_language "ja" "female" = "af_bella"`, a different string
than the reported `"female"`. -/
theorem C8_voice_used_verbatim :
    (∀ (md5 : String → String) (engine ready : Bool) (dir : CacheDir)
        (req : mlxnative.TTSRequest) (segs : List AudioData)
        (r : mlxnative.TTSResponse) (d' : CacheDir),
        mlxnative.synthesize_speech md5 engine ready dir req segs = .ok (r, d') →
        r.voice_used = req.voice)
    ∧ mlxnative.get_voice_for_language "ja" "female" = "af_bella"
    ∧ ("af_bella" : String) ≠ "female" := by
  refine ⟨?_, rfl, by decide⟩
  intro md5 engine ready dir req segs r d' h
  obtain ⟨-, hi⟩ := mlx_ok_iff.mp h
  rcases hfind : dir.find (mlxnative.cacheFileName md5 req) with _ | data
  · obtain ⟨audio, dur, -, hr, -⟩ := mlx_inner_miss hfind hi
    subst hr; rfl
  · obtain ⟨hr, -⟩ := mlx_inner_hit hfind hi
    subst hr; rfl

/-- C9: in the kokoro-tts-server variant, a successful `POST /api/tts` that
hits the cache reports `segments = 1` regardless of the pipeline, while a
cache miss reports the number of triples the pipeline yielded. -/
theorem C9_segments_field :
    (∀ (md5 : String → String) (dir : CacheDir) (req : kokoro.TTSRequest)
        (gen : List kokoro.KSegment) (data : AudioData)
        (r : kokoro.TTSResponse) (d' : CacheDir),
        dir.find (kokoro.cacheFileName md5 req) = some data →
        kokoro.synthesize_speech md5 dir req gen = .ok (r, d') →
        r.segments = 1)
    ∧
    (∀ (md5 : String → String) (dir : CacheDir) (req : kokoro.TTSRequest)
        (gen : List kokoro.KSegment) (r : kokoro.TTSResponse) (d' : CacheDir),
        dir.find (kokoro.cacheFileName md5 req) = none →
        kokoro.synthesize_speech md5 dir req gen = .ok (r, d') →
        r.segments = gen.length) := by
  constructor
  · intro md5 dir req gen data r d' hfind h
    obtain ⟨hr, -⟩ := kokoro_inner_hit hfind (kokoro_ok_iff.mp h)
    subst hr; rfl
  · intro md5 dir req gen r d' hfind h
    obtain ⟨audio, segs, hs, hr, -⟩ := kokoro_inner_miss hfind (kokoro_ok_iff.mp h)
    obtain ⟨-, -, hn⟩ := kokoro_synthesize_spec hs
    subst hr; exact hn

/-- Witness for C1: both parts applied at a concrete request, empty cache
and a one-segment pipeline output. -/
theorem C1_cache_roundtrip_witness :
    ("/audio/kokoro:hi:af_heart:1.0:en.wav" =
        "/audio/" ++ kokoro.cacheFileName id { text := "hi" }) ∧
    ("/audio/mlx-native:hi:female:1.0:ja.wav" =
        "/audio/" ++ mlxnative.cacheFileName id { text := "hi" }) := by
  constructor
  · exact (C1_cache_roundtrip.1 id [] { text := "hi" }
      [⟨"t", "p", [Sample.val 0]⟩] []
      { audio_url := "/audio/kokoro:hi:af_heart:1.0:en.wav", duration := 1/24000,
        cache_hit := false, voice_used := "af_heart", segments := 1 }
      { audio_url := "/audio/kokoro:hi:af_heart:1.0:en.wav", duration := 1/24000,
        cache_hit := true, voice_used := "af_heart", segments := 1 }
      [("kokoro:hi:af_heart:1.0:en.wav", [Sample.val 0])]
      [("kokoro:hi:af_heart:1.0:en.wav", [Sample.val 0])]
      (by rfl) (by rfl) (by rfl)).2.2.2
  · exact (C1_cache_roundtrip.2 id true true [] { text := "hi" }
      [[Sample.val 0]] []
      { audio_url := "/audio/mlx-native:hi:female:1.0:ja.wav", duration := 1/24000,
        cache_hit := false, voice_used := "female" }
      { audio_url := "/audio/mlx-native:hi:female:1.0:ja.wav", duration := 1/24000,
        cache_hit := true, voice_used := "female" }
      [("mlx-native:hi:female:1.0:ja.wav", [Sample.val 0])]
      [("mlx-native:hi:female:1.0:ja.wav", [Sample.val 0])]
      (by rfl) (by rfl) (by rfl)).2.2.2

/-- Witness for C7: both parts applied at a concrete cache that already
holds the request's file (hit path) resp. a concrete existing entry. -/
theorem C7_cache_immutable_witness :
    ([("kokoro:hi:af_heart:1.0:en.wav", [Sample.val 0])] : CacheDir) =
      [("kokoro:hi:af_heart:1.0:en.wav", [Sample.val 0])] ∧
    CacheDir.find [("mlx-native:hi:female:1.0:ja.wav", [Sample.val 0])]
      "mlx-native:hi:female:1.0:ja.wav" = some [Sample.val 0] := by
  constructor
  · exact (C7_cache_immutable.1 id
      [("kokoro:hi:af_heart:1.0:en.wav", [Sample.val 0])] { text := "hi" } []
      { audio_url := "/audio/kokoro:hi:af_heart:1.0:en.wav", duration := 1/24000,
        cache_hit := true, voice_used := "af_heart", segments := 1 }
      [("kokoro:hi:af_heart:1.0:en.wav", [Sample.val 0])]
      (by rfl)).2 [Sample.val 0] (by rfl)
  · exact (C7_cache_immutable.2.1 id true true
      [("mlx-native:hi:female:1.0:ja.wav", [Sample.val 0])] { text := "hi" } []
      { audio_url := "/audio/mlx-native:hi:female:1.0:ja.wav", duration := 1/24000,
        cache_hit := true, voice_used := "female" }
      [("mlx-native:hi:female:1.0:ja.wav", [Sample.val 0])]
      (by rfl)).1 "mlx-native:hi:female:1.0:ja.wav" [Sample.val 0] (by rfl)

/-- Witness for C8: the handler applied at a concrete request asking for
voice `"female"`. -/
theorem C8_voice_used_verbatim_witness :
    ({ audio_url := "/audio/mlx-native:hi:female:1.0:ja.wav", duration := 1/24000,
       cache_hit := false, voice_used := "female" } : mlxnative.TTSResponse).voice_used =
      ({ text := "hi" } : mlxnative.TTSRequest).voice :=
  C8_voice_used_verbatim.1 id true true [] { text := "hi" } [[Sample.val 0]]
    { audio_url := "/audio/mlx-native:hi:female:1.0:ja.wav", duration := 1/24000,
      cache_hit := false, voice_used := "female" }
    [("mlx-native:hi:female:1.0:ja.wav", [Sample.val 0])] (by rfl)

/-- Witness for C9: a cache miss with a two-segment pipeline output
(segments = 2) and a cache hit (segments = 1). -/
theorem C9_segments_field_witness :
    ({ audio_url := "/audio/kokoro:hi:af_heart:1.0:en.wav", duration := 2/24000,
       cache_hit := false, voice_used := "af_heart", segments := 2 } : kokoro.TTSResponse).segments
      = ([⟨"a", "p", [Sample.val 0]⟩, ⟨"b", "q", [Sample.val 0]⟩] : List kokoro.KSegment).length ∧
    ({ audio_url := "/audio/kokoro:hi:af_heart:1.0:en.wav", duration := 1/24000,
       cache_hit := true, voice_used := "af_heart", segments := 1 } : kokoro.TTSResponse).segments
      = 1 := by
  constructor
  · exact C9_segments_field.2 id [] { text := "hi" }
      [⟨"a", "p", [Sample.val 0]⟩, ⟨"b", "q", [Sample.val 0]⟩]
      { audio_url := "/audio/kokoro:hi:af_heart:1.0:en.wav", duration := 2/24000,
        cache_hit := false, voice_used := "af_heart", segments := 2 }
      [("kokoro:hi:af_heart:1.0:en.wav", [Sample.val 0, Sample.val 0])]
      (by rfl) (by rfl)
  · exact C9_segments_field.1 id
      [("kokoro:hi:af_heart:1.0:en.wav", [Sample.val 0])] { text := "hi" } [] [Sample.val 0]
      { audio_url := "/audio/kokoro:hi:af_heart:1.0:en.wav", duration := 1/24000,
        cache_hit := true, voice_used := "af_heart", segments := 1 }
      [("kokoro:hi:af_heart:1.0:en.wav", [Sample.val 0])]
      (by rfl) (by rfl)

/-- C4 (corrected to the mlx-audio-native variant): every waveform the mlx
engine returns consists of finite samples in [-1, 1]; malformed model
output (NaN, Inf, out-of-range samples) is repaired rather than raising —
synthesis succeeds for any non-empty list of non-empty segments, whatever
their values; and every file the mlx handler newly writes to the cache
contains only in-range samples.  The kokoro-tts-server variant has no such
post-processing (see the counterexample). -/
theorem C4_mlx_output_in_range :
    (∀ (ready : Bool) (segs : List AudioData) (audio : AudioData) (dur : ℚ),
        mlxnative.NativeMLXAudioTTS.synthesize ready segs = .ok (audio, dur) →
        ∀ s ∈ audio, inAudioRange s)
    ∧
    (∀ segs : List AudioData, segs ≠ [] → (∀ s ∈ segs, s ≠ []) →
        (mlxnative.NativeMLXAudioTTS.synthesize true segs).isOk = true)
    ∧
    (∀ (md5 : String → String) (engine ready : Bool) (dir : CacheDir)
        (req : mlxnative.TTSRequest) (segs : List AudioData)
        (r : mlxnative.TTSResponse) (d' : CacheDir),
        mlxnative.synthesize_speech md5 engine ready dir req segs = .ok (r, d') →
        ∀ f v, d'.find f = some v → dir.find f = some v ∨ ∀ s ∈ v, inAudioRange s) := by
  refine ⟨?_, ?_, ?_⟩
  · intro ready segs audio dur h s hs
    obtain ⟨processed, -, -, hscrub, -⟩ := synthesizeCore_ok (mlx_synthesize_ok h)
    exact scrub_ok_inAudioRange hscrub s hs
  · intro segs hne hseg
    obtain ⟨audio, dur, hcore⟩ := synthesizeCore_ok_of hne hseg
    rw [mlx_synthesize_of_core hcore]
    rfl
  · intro md5 engine ready dir req segs r d' h f v hv
    obtain ⟨-, hi⟩ := mlx_ok_iff.mp h
    rcases hfind : dir.find (mlxnative.cacheFileName md5 req) with _ | data
    · obtain ⟨audio, dur, hsyn, -, hd'⟩ := mlx_inner_miss hfind hi
      subst hd'
      rcases eq_or_ne f (mlxnative.cacheFileName md5 req) with rfl | hne2
      · rw [CacheDir.find_write_self] at hv
        obtain rfl := Option.some.inj hv
        refine Or.inr fun s hs => ?_
        obtain ⟨processed, -, -, hscrub, -⟩ := synthesizeCore_ok (mlx_synthesize_ok hsyn)
        exact scrub_ok_inAudioRange hscrub s hs
      · rw [CacheDir.find_write_of_ne _ hne2] at hv
        exact Or.inl hv
    · obtain ⟨-, hd'⟩ := mlx_inner_hit hfind hi
      subst hd'
      exact Or.inl hv

/-- C4 counterexample: the kokoro-tts-server variant applies no numeric
post-processing — a pipeline segment whose sample value 2 lies outside
[-1, 1] is cached and served unchanged, and the handler succeeds instead
of repairing or rejecting it; the claim fails for that variant. -/
theorem C4_kokoro_no_postprocessing :
    (kokoro.synthesize_speech id [] { text := "hi" } [⟨"t", "p", [Sample.val 2]⟩]).toOption.map
        (fun p => (p.1.cache_hit, p.2.find "kokoro:hi:af_heart:1.0:en.wav"))
      = some (false, some [Sample.val 2])
    ∧ ¬ inAudioRange (Sample.val 2) := by
  refine ⟨by rfl, ?_⟩
  rintro ⟨q, hq, hle⟩
  obtain rfl := Sample.val.inj hq
  have h2 : (2 : ℚ) ≤ 1 := le_trans (le_abs_self 2) hle
  norm_num at h2

/-- Witness for C4: the mlx engine applied to the single malformed segment
`[+inf]`, which it repairs to `[1]`. -/
theorem C4_mlx_output_in_range_witness :
    inAudioRange (Sample.val 1)
    ∧ (mlxnative.NativeMLXAudioTTS.synthesize true [[Sample.posinf]]).isOk = true := by
  constructor
  · exact C4_mlx_output_in_range.1 true [[Sample.posinf]] [Sample.val 1]
      (((1:ℕ):ℚ)/((24000:ℕ):ℚ)) (by rfl) (Sample.val 1) (by simp)
  · exact C4_mlx_output_in_range.2.1 [[Sample.posinf]] (by simp) (by simp)

/-- C6 (corrected): the kokoro variant returns exactly the pipeline's
waveforms concatenated in yield order together with the segment count, and
raises on an empty pipeline output.  The mlx variant returns the in-order
concatenation of the *repaired* segments — so the final length equals the
sum of the original segment lengths — and raises on an empty pipeline
output, but also raises on any zero-length waveform segment (see the
counterexample). -/
theorem C6_concatenation :
    (∀ (gen : List kokoro.KSegment) (a : AudioData) (n : ℕ),
        kokoro.KokoroTTS.synthesize gen = .ok (a, n) →
        a = (gen.map kokoro.KSegment.audio).flatten ∧ n = gen.length)
    ∧ kokoro.KokoroTTS.synthesize [] = .error "No audio segments generated"
    ∧
    (∀ (segs : List AudioData) (audio : AudioData) (dur : ℚ),
        mlxnative.NativeMLXAudioTTS.synthesize true segs = .ok (audio, dur) →
        ∃ processed, mlxnative.scrubAll segs = .ok processed ∧
          audio = processed.flatten ∧
          audio.length = (segs.map List.length).sum)
    ∧ mlxnative.NativeMLXAudioTTS.synthesize true []
        = .error "MLX-Audio synthesis failed: No audio segments generated" := by
  refine ⟨?_, rfl, ?_, rfl⟩
  · intro gen a n h
    obtain ⟨-, h1, h2⟩ := kokoro_synthesize_spec h
    exact ⟨h1, h2⟩
  · intro segs audio dur h
    obtain ⟨processed, hall, hne, hscrub, -⟩ := synthesizeCore_ok (mlx_synthesize_ok h)
    have hgood : ∀ s ∈ processed.flatten, inAudioRange s := by
      intro s hs
      obtain ⟨p, hp, hsp⟩ := List.mem_flatten.mp hs
      obtain ⟨t, -, ht⟩ := scrubAll_mem hall hp
      exact scrub_ok_inAudioRange ht s hsp
    have hfne : processed.flatten ≠ [] := scrub_ok_ne_nil hscrub
    rw [scrub_eq_self hgood hfne] at hscrub
    obtain rfl := Except.ok.inj hscrub
    refine ⟨processed, hall, rfl, ?_⟩
    rw [List.length_flatten, scrubAll_map_length hall]

/-- C6 counterexample: a non-empty pipeline output containing a zero-length
waveform segment makes the mlx variant raise (the per-segment `np.max` of a
zero-size array) instead of returning the concatenation, and a repaired
segment makes the returned waveform differ from the concatenation of the
waveforms the pipeline yielded. -/
theorem C6_mlx_empty_segment_raises :
    mlxnative.NativeMLXAudioTTS.synthesize true [[]]
      = .error "MLX-Audio synthesis failed: zero-size array to reduction operation maximum which has no identity"
    ∧ ([[]] : List AudioData) ≠ []
    ∧ mlxnative.NativeMLXAudioTTS.synthesize true [[Sample.posinf]]
        = .ok ([Sample.val 1], ((1:ℕ):ℚ)/((24000:ℕ):ℚ))
    ∧ ([Sample.val 1] : AudioData) ≠ ([[Sample.posinf]] : List AudioData).flatten := by
  exact ⟨rfl, by simp, rfl, by decide⟩

/-- Witness for C6 at concrete pipeline outputs. -/
theorem C6_concatenation_witness :
    (([Sample.val 0, Sample.val 3] : AudioData) =
        ([⟨"a", "p", [Sample.val 0]⟩, ⟨"b", "q", [Sample.val 3]⟩].map kokoro.KSegment.audio).flatten
      ∧ (2 : ℕ) = ([⟨"a", "p", [Sample.val 0]⟩, ⟨"b", "q", [Sample.val 3]⟩] : List kokoro.KSegment).length)
    ∧ ([Sample.val 1] : AudioData).length = ([[Sample.posinf]].map List.length).sum := by
  constructor
  · exact C6_concatenation.1 [⟨"a", "p", [Sample.val 0]⟩, ⟨"b", "q", [Sample.val 3]⟩]
      [Sample.val 0, Sample.val 3] 2 (by rfl)
  · obtain ⟨p, -, -, hlen⟩ := C6_concatenation.2.2.1 [[Sample.posinf]] [Sample.val 1]
      (((1:ℕ):ℚ)/((24000:ℕ):ℚ)) (by rfl)
    exact hlen

/-- C2 (code bug, evaluated at the failing input): the kokoro-tts-server
handler constructs the 400 "unsupported language" `HTTPException`, but the
handler's blanket `except Exception` catches it and re-raises a 500 whose
detail merely embeds the 400 message (with the supported-language list);
and the mlx-audio-native handler performs no language validation at all —
the unsupported language "xx" is accepted and synthesized. -/
theorem C2_unsupported_language_response :
    kokoro.synthesize_speech id [] { text := "hello", language := "xx" } []
      = .error (500, "TTS synthesis failed: "
          ++ (PyError.http 400 ("Language \x27xx\x27 not supported. Supported: "
                ++ kokoro.supportedKeysRepr)).str)
    ∧ (mlxnative.synthesize_speech id true true [] { text := "hello", language := "xx" }
        [[Sample.val 0]]).isOk = true := ⟨rfl, rfl⟩

/-- C5: in both variants `GET /audio/{filename}` answers the 404 "Audio
file not found" exactly when no file of that name is in the audio cache
directory, and an existing file is served with header
`Cache-Control: public, max-age=3600`. -/
theorem C5_audio_404_iff_missing :
    (∀ (dir : CacheDir) (filename : String),
        (kokoro.get_audio_file dir filename = .error (404, "Audio file not found") ↔
          dir.find filename = none)
        ∧ ∀ fr, kokoro.get_audio_file dir filename = .ok fr →
            fr.cacheControl = "public, max-age=3600")
    ∧
    (∀ (dir : CacheDir) (filename : String),
        (mlxnative.get_audio_file dir filename = .error (404, "Audio file not found") ↔
          dir.find filename = none)
        ∧ ∀ fr, mlxnative.get_audio_file dir filename = .ok fr →
            fr.cacheControl = "public, max-age=3600") := by
  constructor
  · intro dir filename
    rcases hfind : dir.find filename with _ | data
    · refine ⟨by simp [kokoro.get_audio_file, hfind], ?_⟩
      intro fr h
      simp [kokoro.get_audio_file, hfind] at h
    · refine ⟨by simp [kokoro.get_audio_file, hfind], ?_⟩
      intro fr h
      simp only [kokoro.get_audio_file, hfind] at h
      obtain rfl := Except.ok.inj h
      rfl
  · intro dir filename
    rcases hfind : dir.find filename with _ | data
    · refine ⟨by simp [mlxnative.get_audio_file, hfind], ?_⟩
      intro fr h
      simp [mlxnative.get_audio_file, hfind] at h
    · refine ⟨by simp [mlxnative.get_audio_file, hfind], ?_⟩
      intro fr h
      simp only [mlxnative.get_audio_file, hfind] at h
      obtain rfl := Except.ok.inj h
      rfl

/-- Witness for C5: an existing file is served with the cache header, a
missing one maps to the 404. -/
theorem C5_audio_404_iff_missing_witness :
    ({ path := "a.wav", media_type := "audio/wav",
       cacheControl := "public, max-age=3600" } : kokoro.FileResp).cacheControl
      = "public, max-age=3600"
    ∧ CacheDir.find [] "missing.wav" = none := by
  constructor
  · exact (C5_audio_404_iff_missing.1 [("a.wav", [Sample.val 0])] "a.wav").2
      { path := "a.wav", media_type := "audio/wav", cacheControl := "public, max-age=3600" }
      (by rfl)
  · exact (C5_audio_404_iff_missing.2 [] "missing.wav").1.mp (by rfl)

/-- C10 counterexample: for an unsupported language with an unknown voice
preference the fallback resolves to the English table's "female" entry
"af_heart" — not to "af_bella", which is an unreachable literal default. -/
theorem C10_fallback_not_bella :
    mlxnative.supported_languages "xx" = none
    ∧ mlxnative.voice_mapping_en "zz" = none
    ∧ mlxnative.get_voice_for_language "xx" "zz" = "af_heart"
    ∧ ("af_heart" : String) ≠ "af_bella" := ⟨rfl, rfl, rfl, by decide⟩

/-- C10 (amended): `get_lang_code` and `get_voice_for_language` are total
over arbitrary strings — an unsupported language maps to the Japanese code
"j", and an unknown language together with an unknown voice preference
falls back to the English voice table's "female" entry "af_heart" (the
literal "af_bella" default is dead code since every table has a "female"
entry) — and the mlx handler never answers 400. -/
theorem C10_total_language_handling :
    (∀ language, mlxnative.supported_languages language = none →
        mlxnative.get_lang_code language = "j")
    ∧ (∀ language voice, mlxnative.voice_mapping language = none →
        mlxnative.voice_mapping_en voice = none →
        mlxnative.get_voice_for_language language voice = "af_heart")
    ∧ (∀ (md5 : String → String) (engine ready : Bool) (dir : CacheDir)
          (req : mlxnative.TTSRequest) (segs : List AudioData) (c : ℕ) (d : String),
          mlxnative.synthesize_speech md5 engine ready dir req segs = .error (c, d) →
          c ≠ 400) := by
  refine ⟨?_, ?_, ?_⟩
  · intro language h
    simp [mlxnative.get_lang_code, h]
  · intro language voice h1 h2
    have hf : mlxnative.voice_mapping_en "female" = some "af_heart" := rfl
    simp [mlxnative.get_voice_for_language, h1, h2, hf]
  · intro md5 engine ready dir req segs c d h
    unfold mlxnative.synthesize_speech at h
    cases engine
    · simp only [Bool.false_eq_true, if_false] at h
      obtain ⟨hc, -⟩ := Prod.mk.injEq .. ▸ (Except.error.inj h)
      omega
    · simp only [if_true] at h
      rcases hi : mlxnative.synthesizeSpeechInner md5 ready dir req segs with e | r
      · simp only [hi] at h
        obtain ⟨hc, -⟩ := Prod.mk.injEq .. ▸ (Except.error.inj h)
        omega
      · simp [hi] at h

/-- Witness for C10 at concrete inputs. -/
theorem C10_total_language_handling_witness :
    mlxnative.get_lang_code "xx" = "j"
    ∧ mlxnative.get_voice_for_language "xx" "zz" = "af_heart"
    ∧ (503 : ℕ) ≠ 400 :=
  ⟨C10_total_language_handling.1 "xx" rfl,
   C10_total_language_handling.2.1 "xx" "zz" rfl rfl,
   C10_total_language_handling.2.2 id false true [] { text := "hi" } [] 503
     "TTS engine not initialized" (by rfl)⟩

theorem string_data_append (s t : String) : (s ++ t).data = s.data ++ t.data := rfl

theorem string_eq_of_data {s t : String} (h : s.data = t.data) : s = t := by
  cases s
  cases t
  exact congrArg String.mk h

theorem colon_sep_inj {a b r s : List Char} (ha : ':' ∉ a) (hb : ':' ∉ b)
    (h : a ++ ':' :: r = b ++ ':' :: s) : a = b ∧ r = s := by
  induction a generalizing b with
  | nil =>
      cases b with
      | nil => simpa using h
      | cons c b2 =>
          simp only [List.nil_append, List.cons_append, List.cons.injEq] at h
          obtain ⟨h1, -⟩ := h
          subst h1
          exact absurd (List.mem_cons_self _ _) hb
  | cons x a2 ih =>
      cases b with
      | nil =>
          simp only [List.nil_append, List.cons_append, List.cons.injEq] at h
          obtain ⟨h1, -⟩ := h
          subst h1
          exact absurd (List.mem_cons_self _ _) ha
      | cons y b2 =>
          simp only [List.cons_append, List.cons.injEq] at h
          obtain ⟨rfl, h2⟩ := h
          have hrec := ih (fun hx => ha (List.mem_cons_of_mem _ hx))
            (fun hx => hb (List.mem_cons_of_mem _ hx)) h2
          exact ⟨by rw [hrec.1], hrec.2⟩

theorem kokoro_content_data (t v sp l : String) :
    (kokoro.cacheKeyContent t v sp l).data =
      'k' :: 'o' :: 'k' :: 'o' :: 'r' :: 'o' :: ':' ::
        (t.data ++ ':' :: (v.data ++ ':' :: (sp.data ++ ':' :: l.data))) := by
  have h1 : ("kokoro:" : String).data = ['k', 'o', 'k', 'o', 'r', 'o', ':'] := rfl
  have h2 : (":" : String).data = [':'] := rfl
  simp [kokoro.cacheKeyContent, string_data_append, h1, h2, List.append_assoc]

theorem mlx_content_data (t v sp l : String) :
    (mlxnative.cacheKeyContent t v sp l).data =
      'm' :: 'l' :: 'x' :: '-' :: 'n' :: 'a' :: 't' :: 'i' :: 'v' :: 'e' :: ':' ::
        (t.data ++ ':' :: (v.data ++ ':' :: (sp.data ++ ':' :: l.data))) := by
  have h1 : ("mlx-native:" : String).data
      = ['m', 'l', 'x', '-', 'n', 'a', 't', 'i', 'v', 'e', ':'] := rfl
  have h2 : (":" : String).data = [':'] := rfl
  simp [mlxnative.cacheKeyContent, string_data_append, h1, h2, List.append_assoc]

theorem cacheKeyContent_inj_kokoro {t1 v1 s1 l1 t2 v2 s2 l2 : String}
    (ht1 : colonFree t1) (hv1 : colonFree v1) (hs1 : colonFree s1)
    (ht2 : colonFree t2) (hv2 : colonFree v2) (hs2 : colonFree s2)
    (h : kokoro.cacheKeyContent t1 v1 s1 l1 = kokoro.cacheKeyContent t2 v2 s2 l2) :
    t1 = t2 ∧ v1 = v2 ∧ s1 = s2 ∧ l1 = l2 := by
  have hd := congrArg String.data h
  rw [kokoro_content_data, kokoro_content_data] at hd
  simp only [List.cons.injEq, true_and] at hd
  obtain ⟨e1, hd⟩ := colon_sep_inj ht1 ht2 hd
  obtain ⟨e2, hd⟩ := colon_sep_inj hv1 hv2 hd
  obtain ⟨e3, e4⟩ := colon_sep_inj hs1 hs2 hd
  exact ⟨string_eq_of_data e1, string_eq_of_data e2,
    string_eq_of_data e3, string_eq_of_data e4⟩

theorem cacheKeyContent_inj_mlx {t1 v1 s1 l1 t2 v2 s2 l2 : String}
    (ht1 : colonFree t1) (hv1 : colonFree v1) (hs1 : colonFree s1)
    (ht2 : colonFree t2) (hv2 : colonFree v2) (hs2 : colonFree s2)
    (h : mlxnative.cacheKeyContent t1 v1 s1 l1 = mlxnative.cacheKeyContent t2 v2 s2 l2) :
    t1 = t2 ∧ v1 = v2 ∧ s1 = s2 ∧ l1 = l2 := by
  have hd := congrArg String.data h
  rw [mlx_content_data, mlx_content_data] at hd
  simp only [List.cons.injEq, true_and] at hd
  obtain ⟨e1, hd⟩ := colon_sep_inj ht1 ht2 hd
  obtain ⟨e2, hd⟩ := colon_sep_inj hv1 hv2 hd
  obtain ⟨e3, e4⟩ := colon_sep_inj hs1 hs2 hd
  exact ⟨string_eq_of_data e1, string_eq_of_data e2,
    string_eq_of_data e3, string_eq_of_data e4⟩

/-- C3 counterexample: even with a collision-free (injective) hash the
colon-separated serialization collides — the distinct request tuples
("a:b", "c", 1.0, "en") and ("a", "b:c", 1.0, "en") yield the same cache
key, so the claimed equivalence of key equality and tuple equality is
false. -/
theorem C3_key_collision :
    ¬ (∀ md5 : String → String, Function.Injective md5 →
        ∀ t1 v1 s1 l1 t2 v2 s2 l2 : String,
          (kokoro.generate_cache_key md5 t1 v1 s1 l1 = kokoro.generate_cache_key md5 t2 v2 s2 l2
            ↔ (t1 = t2 ∧ v1 = v2 ∧ s1 = s2 ∧ l1 = l2))) := by
  intro hclaim
  have h := (hclaim id Function.injective_id "a:b" "c" "1.0" "en" "a" "b:c" "1.0" "en").mp
    (by rfl)
  exact absurd h.1 (by decide)

/-- C3 (amended): in both variants `generate_cache_key` is deterministic
and — treating the hash as collision-free (injective) — the key determines
the request tuple *provided* text, voice and the rendered speed contain no
':' separator character (Python's float rendering never does); without
that proviso distinct tuples can share a key, as the counterexample shows. -/
theorem C3_cache_key_injective_on_colon_free :
    ∀ md5 : String → String, Function.Injective md5 →
    ∀ t1 v1 s1 l1 t2 v2 s2 l2 : String,
    colonFree t1 → colonFree v1 → colonFree s1 →
    colonFree t2 → colonFree v2 → colonFree s2 →
    ((kokoro.generate_cache_key md5 t1 v1 s1 l1 = kokoro.generate_cache_key md5 t2 v2 s2 l2
        ↔ (t1 = t2 ∧ v1 = v2 ∧ s1 = s2 ∧ l1 = l2))
     ∧ (mlxnative.generate_cache_key md5 t1 v1 s1 l1 = mlxnative.generate_cache_key md5 t2 v2 s2 l2
        ↔ (t1 = t2 ∧ v1 = v2 ∧ s1 = s2 ∧ l1 = l2))) := by
  intro md5 hinj t1 v1 s1 l1 t2 v2 s2 l2 ht1 hv1 hs1 ht2 hv2 hs2
  constructor
  · constructor
    · intro h
      exact cacheKeyContent_inj_kokoro ht1 hv1 hs1 ht2 hv2 hs2 (hinj h)
    · rintro ⟨rfl, rfl, rfl, rfl⟩
      rfl
  · constructor
    · intro h
      exact cacheKeyContent_inj_mlx ht1 hv1 hs1 ht2 hv2 hs2 (hinj h)
    · rintro ⟨rfl, rfl, rfl, rfl⟩
      rfl

/-- Witness for C3 at concrete colon-free fields and the identity as
(injective) hash. -/
theorem C3_cache_key_injective_witness :
    (kokoro.generate_cache_key id "a" "b" "1.0" "en"
        = kokoro.generate_cache_key id "a" "b" "1.0" "en"
      ↔ ("a" = "a" ∧ "b" = "b" ∧ "1.0" = "1.0" ∧ ("en" : String) = "en"))
    ∧ (mlxnative.generate_cache_key id "a" "b" "1.0" "en"
        = mlxnative.generate_cache_key id "a" "b" "1.0" "en"
      ↔ ("a" = "a" ∧ "b" = "b" ∧ "1.0" = "1.0" ∧ ("en" : String) = "en")) :=
  C3_cache_key_injective_on_colon_free id Function.injective_id "a" "b" "1.0" "en"
    "a" "b" "1.0" "en" (by decide) (by decide) (by decide) (by decide) (by decide) (by decide)
